import Mathlib

/-!
Shallow embedding of `src/app.py` (devansh141/junction_box), a Flask service
that ingests ESP32 telemetry, classifies it into alert records, tracks
per-device power-supply state and persists the alert history to a JSON file.

Modelling conventions:
* Python/JSON values reachable through `request.json.get(...)` are modelled by
  `JVal`; `dict.get` of an absent key yields `JVal.null` (Python `None`).
* The global mutable state (`alerts`, `power_status`, the files on disk) is a
  `ServerState` record threaded explicitly through the handlers.
* `datetime.now()` is abstracted by a `now : String` argument standing for the
  rendered timestamp; the image filename `strftime("%Y%m%d_%H%M%S") + ".jpg"`
  is abstracted as `now ++ ".jpg"` (the two strftime renderings of the same
  instant are not distinguished; no claim depends on the format).
* `alerts_history.json` is modelled by `AlertsFile`: absent, unparseable, or a
  parseable rendering of a list of alert records (`json.dump` of the flat
  string/int records used here is inverted by `json.load`).
* `random.choice(scenarios)` is modelled by an arbitrary index `k : Nat` taken
  modulo the length of the candidate list, covering every possible draw.
-/

/-- A JSON value as seen by the handlers through `request.json.get`. -/
inductive JVal where
  | null
  | bool (b : Bool)
  | str (s : String)
  | num (n : Int)
deriving DecidableEq

/-- Python `body.get(k)`: the value at key `k`, or `None` when absent. -/
def jget (body : List (String × JVal)) (k : String) : JVal :=
  match body.lookup k with
  | some v => v
  | none => JVal.null

/-- One alert record, with the exact field names used in `app.py`. -/
structure Alert where
  id : Nat
  device_id : String
  alert_type : String
  message : String
  timestamp : String
  image : String
deriving DecidableEq

/-- One entry of the `power_status` dict (app.py lines 21-24): the two supply
values and the last-update time.  After `update_power_status` the supply
fields hold whatever JSON values the request carried, hence `JVal`. -/
structure PowerState where
  main : JVal
  backup : JVal
  last_update : String
deriving DecidableEq

/-- The durable `alerts_history.json` file: absent, unparseable by
`json.load`, or a parseable rendering of a list of alert records. -/
inductive AlertsFile where
  | missing
  | corrupt
  | stored (l : List Alert)
deriving DecidableEq

/-- `load_alerts_from_file` (app.py lines 26-35): if the file exists, try to
parse it, resetting to `[]` on any parse failure; if the file is missing the
global `alerts` (passed here as `prev`) is left untouched. -/
def load_alerts_from_file (prev : List Alert) (file : AlertsFile) : List Alert :=
  match file with
  | AlertsFile.missing => prev
  | AlertsFile.corrupt => []
  | AlertsFile.stored l => l

/-- `save_alerts_to_file` (app.py lines 37-40): `json.dump` of the whole
in-memory collection, producing a parseable file holding exactly it. -/
def save_alerts_to_file (l : List Alert) : AlertsFile :=
  AlertsFile.stored l

/-- The power-state classification of `get_power_status` (app.py lines
74-87), as a pure function of the two supply booleans, returning the
`(state, state_class)` pair. -/
def classifyPower (main backup : Bool) : String × String :=
  if main && backup then
    ("Normal - Both supplies active", "success")
  else if !main && backup then
    ("Running on BACKUP power", "warning")
  else if main && !backup then
    ("Main supply active, backup offline", "info")
  else
    ("No Power Available - CRITICAL", "danger")

/-- Python substring test `pat in s`. -/
def strContains (s pat : String) : Bool :=
  decide (pat.data <:+: s.data)

/-- The message classifier of `receive_from_esp32` (app.py lines 201-210):
ordered substring rules, first match wins, defaulting to "General Alert". -/
def classifyMessage (message : String) : String :=
  if strContains message "Access status changed" then "Access Status Change"
  else if strContains message "Vibration detected" then "Vibration Alert"
  else if strContains message "ALERT:" && strContains message "Access Denied" then "Critical Alert"
  else if strContains message "Door opened" then "Door Alert"
  else "General Alert"

/-- The simulator's candidate outcomes (app.py lines 124-132): seven entries,
all `main = True, backup = True`. -/
def scenarios : List (Bool × Bool) :=
  [(true, true), (true, true), (true, true), (true, true),
   (true, true), (true, true), (true, true)]

/-- `random.choice(scenarios)` (app.py line 134): `k` abstracts the random
draw; any draw picks some index of the list. -/
def chooseScenario (k : Nat) : Bool × Bool :=
  scenarios.getD (k % scenarios.length) (false, false)

/-- The mutable server state: the global `alerts` list, the `power_status`
dict, the durable alerts file, the `messages.txt` audit log (one line per
append), and the `received_images` blob store (filename to bytes). -/
structure ServerState where
  alerts : List Alert
  power : List (String × PowerState)
  file : AlertsFile
  msgLog : List String
  images : List (String × List Nat)
deriving DecidableEq

/-- Python dict assignment `d[k] = v` on an association list: replace the
binding of `k` if present, else append it. -/
def dinsert (k : String) (v : PowerState) : List (String × PowerState) → List (String × PowerState)
  | [] => [(k, v)]
  | (k', v') :: rest => if k' = k then (k, v) :: rest else (k', v') :: dinsert k v rest

/-- Writing a blob file: overwrite the entry with the same name if present
(the filename-collision policy of the image store), else add it. -/
def fwrite (name : String) (bytes : List Nat) : List (String × List Nat) → List (String × List Nat)
  | [] => [(name, bytes)]
  | (n, b) :: rest => if n = name then (name, bytes) :: rest else (n, b) :: fwrite name bytes rest

/-- The response bodies produced by the three handlers, abstracted to tags
(their JSON/text rendering carries no further state). -/
inductive Payload where
  | errorDeviceNotFound
  | statusSuccess
  | successWithPower (ps : PowerState)
  | textImageReceived
  | textMessageReceived
  | textUnsupported
deriving DecidableEq

/-- An HTTP response: status code and body tag. -/
structure Resp where
  status : Nat
  payload : Payload
deriving DecidableEq

/-- Python `device_id in power_status` (the dict-membership test of the
handlers): only a string value can be among the dict's string keys. -/
def inPower (v : JVal) (power : List (String × PowerState)) : Bool :=
  match v with
  | JVal.str s => (power.lookup s).isSome
  | _ => false

/-- `update_power_status` (app.py lines 97-113): look up `device_id` in
`power_status` (a non-string value is never among the string keys), 404 when
absent, otherwise overwrite the entry with the request's `main_supply` and
`backup_supply` values verbatim and a fresh `last_update`. -/
def update_power_status (st : ServerState) (body : List (String × JVal)) (now : String) : Resp × ServerState :=
  match jget body "device_id" with
  | JVal.str d =>
    if (st.power.lookup d).isSome then
      (⟨200, Payload.statusSuccess⟩,
       { st with power := dinsert d ⟨jget body "main_supply", jget body "backup_supply", now⟩ st.power })
    else
      (⟨404, Payload.errorDeviceNotFound⟩, st)
  | _ => (⟨404, Payload.errorDeviceNotFound⟩, st)

/-- `simulate_power_change` (app.py lines 115-165): 404 for an unknown
device, otherwise store the drawn scenario, then append a "Power Alert" when
`not main and backup`, a "Critical Power Alert" when `not main and not
backup`, and no alert otherwise; each append assigns
`id = len(alerts) + 1` and rewrites the durable file. -/
def simulate_power_change (st : ServerState) (body : List (String × JVal)) (k : Nat) (now : String) : Resp × ServerState :=
  match jget body "device_id" with
  | JVal.str d =>
    if (st.power.lookup d).isSome then
      let scenario := chooseScenario k
      let ps : PowerState := ⟨JVal.bool scenario.1, JVal.bool scenario.2, now⟩
      let st1 := { st with power := dinsert d ps st.power }
      let st2 :=
        if !scenario.1 && scenario.2 then
          let alert : Alert := ⟨st1.alerts.length + 1, d, "Power Alert",
            "Main supply failed - Running on BACKUP power", now, "placeholder.jpg"⟩
          { st1 with alerts := st1.alerts ++ [alert],
                     file := save_alerts_to_file (st1.alerts ++ [alert]) }
        else if !scenario.1 && !scenario.2 then
          let alert : Alert := ⟨st1.alerts.length + 1, d, "Critical Power Alert",
            "CRITICAL: No Power Available", now, "placeholder.jpg"⟩
          { st1 with alerts := st1.alerts ++ [alert],
                     file := save_alerts_to_file (st1.alerts ++ [alert]) }
        else st1
      (⟨200, Payload.successWithPower ps⟩, st2)
    else
      (⟨404, Payload.errorDeviceNotFound⟩, st)
  | _ => (⟨404, Payload.errorDeviceNotFound⟩, st)

/-- A POST request to `/old`: declared content type, raw body bytes, the
optional `message` form field, and the optional `device_id` query param. -/
structure PostReq where
  content_type : String
  data : List Nat
  form_message : Option String
  query_device : Option String
deriving DecidableEq

/-- The POST half of `receive_from_esp32` (app.py lines 170-230): dispatch on
the declared content type.  `image/jpeg` stores the bytes under a
timestamp-derived name and appends an "Image Captured" alert;
`application/x-www-form-urlencoded` classifies the message, appends the
classified alert and one audit-log line; anything else is a 400 with no
state change.  Each append assigns `id = len(alerts) + 1` and rewrites the
durable file. -/
def receive_from_esp32 (st : ServerState) (req : PostReq) (now : String) : Resp × ServerState :=
  if req.content_type = "image/jpeg" then
    let fname := now ++ ".jpg"
    let device_id := req.query_device.getD "UNKNOWN"
    let alert : Alert := ⟨st.alerts.length + 1, device_id, "Image Captured",
      "Photo captured by device", now, fname⟩
    let alerts2 := st.alerts ++ [alert]
    (⟨200, Payload.textImageReceived⟩,
     { st with images := fwrite fname req.data st.images,
               alerts := alerts2,
               file := save_alerts_to_file alerts2 })
  else if req.content_type = "application/x-www-form-urlencoded" then
    let message := req.form_message.getD ""
    let device_id := req.query_device.getD "UNKNOWN"
    let alert_type := classifyMessage message
    let alert : Alert := ⟨st.alerts.length + 1, device_id, alert_type, message, now, "placeholder.jpg"⟩
    let alerts2 := st.alerts ++ [alert]
    (⟨200, Payload.textMessageReceived⟩,
     { st with alerts := alerts2,
               file := save_alerts_to_file alerts2,
               msgLog := st.msgLog ++ [now ++ " | " ++ device_id ++ " | " ++ message] })
  else
    (⟨400, Payload.textUnsupported⟩, st)

/-- One inbound mutating submission: a POST to `/old`, a power-status update,
or a simulator run (with its abstracted random draw). -/
inductive Submission where
  | post (req : PostReq) (now : String)
  | updatePower (body : List (String × JVal)) (now : String)
  | simulate (body : List (String × JVal)) (k : Nat) (now : String)

/-- The state transition of one submission (the response is dropped). -/
def step (st : ServerState) (sub : Submission) : ServerState :=
  match sub with
  | Submission.post req now => (receive_from_esp32 st req now).2
  | Submission.updatePower body now => (update_power_status st body now).2
  | Submission.simulate body k now => (simulate_power_change st body k now).2

/-- Sequential execution of a list of submissions. -/
def run (st : ServerState) (subs : List Submission) : ServerState :=
  subs.foldl step st

/-- How many of the submissions appended an alert along the run. -/
def countEmitted (st : ServerState) : List Submission → Nat
  | [] => 0
  | sub :: rest =>
    ((step st sub).alerts.length - st.alerts.length) + countEmitted (step st sub) rest

/-- The initial `power_status` dict (app.py lines 22-24). -/
def initPower : List (String × PowerState) :=
  [("DEV001", ⟨JVal.bool true, JVal.bool true, "startup"⟩)]

/-- Process start (app.py lines 14-24 and 43): empty `alerts` overwritten by
`load_alerts_from_file`, the one registered device powered on both supplies. -/
def initState (file : AlertsFile) : ServerState :=
  { alerts := load_alerts_from_file [] file
    power := initPower
    file := file
    msgLog := []
    images := [] }

/-! Shared helper lemmas. -/

/-- Every possible draw from the simulator's candidate list is the
both-supplies-active pair. -/
lemma chooseScenario_eq (k : Nat) : chooseScenario k = (true, true) := by
  have h : k % scenarios.length < 7 := by
    have hlen : scenarios.length = 7 := rfl
    rw [hlen]
    exact Nat.mod_lt _ (by decide)
  unfold chooseScenario
  set i := k % scenarios.length with hi
  interval_cases i <;> rfl

/-- Substring containment is transitive through an intermediate string. -/
lemma strContains_trans (s p q : String) (h1 : strContains p q = true)
    (h2 : strContains s p = true) : strContains s q = true := by
  unfold strContains at h1 h2 ⊢
  exact decide_eq_true (List.IsInfix.trans (of_decide_eq_true h1) (of_decide_eq_true h2))

/-- Looking up the key just assigned returns the assigned value. -/
lemma lookup_dinsert (k : String) (v : PowerState) (m : List (String × PowerState)) :
    (dinsert k v m).lookup k = some v := by
  induction m with
  | nil => simp [dinsert]
  | cons hd tl ih =>
    obtain ⟨k', v'⟩ := hd
    by_cases hk : k' = k
    · simp [dinsert, hk]
    · have hkk : (k == k') = false := beq_eq_false_iff_ne.mpr (Ne.symm hk)
      simp [dinsert, hk, List.lookup, hkk, ih]

/-! Claim theorems. -/

/-- C4: power-state classification is a pure function of the (main, backup)
boolean pair realising exactly the four-row table of the spec, and no other
(label, severity) result is possible. -/
theorem c4_power_classification_table :
    classifyPower true true = ("Normal - Both supplies active", "success") ∧
    classifyPower false true = ("Running on BACKUP power", "warning") ∧
    classifyPower true false = ("Main supply active, backup offline", "info") ∧
    classifyPower false false = ("No Power Available - CRITICAL", "danger") ∧
    ∀ main backup : Bool,
      classifyPower main backup = ("Normal - Both supplies active", "success") ∨
      classifyPower main backup = ("Running on BACKUP power", "warning") ∨
      classifyPower main backup = ("Main supply active, backup offline", "info") ∨
      classifyPower main backup = ("No Power Available - CRITICAL", "danger") := by
  refine ⟨rfl, rfl, rfl, rfl, ?_⟩
  intro main backup
  cases main <;> cases backup <;> simp [classifyPower]

/-- C7: loading the alert history at startup (where the in-memory collection
is still empty) yields the empty collection for a missing file and for an
unparseable file, and the persisted collection for a well-formed file. -/
theorem c7_load_fail_open :
    load_alerts_from_file [] AlertsFile.missing = [] ∧
    load_alerts_from_file [] AlertsFile.corrupt = [] ∧
    ∀ l : List Alert, load_alerts_from_file [] (AlertsFile.stored l) = l :=
  ⟨rfl, rfl, fun _ => rfl⟩

/-- C8: persisting any alert collection and reloading it (whatever the
previous in-memory collection was) reproduces the identical ordered
sequence of records. -/
theorem c8_save_load_roundtrip :
    ∀ (prev l : List Alert), load_alerts_from_file prev (save_alerts_to_file l) = l :=
  fun _ _ => rfl

/-- C2 counterexample: the message
"Access status changed Vibration detected Door opened" contains both
"Vibration detected" and "Door opened" yet classifies as
"Access Status Change" (rule 1 precedes rule 2), refuting the claim that
every such message classifies as "Vibration Alert". -/
theorem c2_counterexample :
    strContains "Access status changed Vibration detected Door opened" "Vibration detected" = true ∧
    strContains "Access status changed Vibration detected Door opened" "Door opened" = true ∧
    classifyMessage "Access status changed Vibration detected Door opened" = "Access Status Change" ∧
    classifyMessage "Access status changed Vibration detected Door opened" ≠ "Vibration Alert" := by
  refine ⟨by decide, by decide, by decide, by decide⟩

/-- C2 amended: the classifier evaluates its substring rules in the fixed
order with first match winning; every message containing both
"Vibration detected" and "Door opened" and not containing
"Access status changed" classifies as "Vibration Alert". -/
theorem c2_vibration_beats_door (m : String)
    (h1 : strContains m "Vibration detected" = true)
    (h2 : strContains m "Door opened" = true)
    (h3 : strContains m "Access status changed" = false) :
    classifyMessage m = "Vibration Alert" := by
  simp [classifyMessage, h1, h3]

/-- C2 witness: the amended theorem at the concrete message
"Vibration detected Door opened". -/
theorem c2_vibration_beats_door_witness :
    classifyMessage "Vibration detected Door opened" = "Vibration Alert" :=
  c2_vibration_beats_door "Vibration detected Door opened" (by decide) (by decide) (by decide)

/-- C3 counterexample: "Vibration detected ALERT: Access Denied" contains
"ALERT: Access Denied" yet classifies as "Vibration Alert" (rule 2 precedes
rule 3), and "ALERT: Door opened" contains "ALERT:" without "Access Denied"
yet classifies as "Door Alert", not "General Alert" (rule 4 still fires). -/
theorem c3_counterexample :
    (strContains "Vibration detected ALERT: Access Denied" "ALERT: Access Denied" = true ∧
     classifyMessage "Vibration detected ALERT: Access Denied" ≠ "Critical Alert") ∧
    (strContains "ALERT: Door opened" "ALERT:" = true ∧
     strContains "ALERT: Door opened" "Access Denied" = false ∧
     classifyMessage "ALERT: Door opened" ≠ "General Alert") := by
  refine ⟨⟨by decide, by decide⟩, by decide, by decide, by decide⟩

/-- C3 amended: a message containing "ALERT: Access Denied" and containing
neither "Access status changed" nor "Vibration detected" classifies as
"Critical Alert"; a message containing "ALERT:" and none of "Access Denied",
"Access status changed", "Vibration detected", "Door opened" classifies as
"General Alert". -/
theorem c3_alert_rules :
    (∀ m : String, strContains m "ALERT: Access Denied" = true →
      strContains m "Access status changed" = false →
      strContains m "Vibration detected" = false →
      classifyMessage m = "Critical Alert") ∧
    (∀ m : String, strContains m "ALERT:" = true →
      strContains m "Access Denied" = false →
      strContains m "Access status changed" = false →
      strContains m "Vibration detected" = false →
      strContains m "Door opened" = false →
      classifyMessage m = "General Alert") := by
  constructor
  · intro m h ha hv
    have h1 : strContains m "ALERT:" = true :=
      strContains_trans m "ALERT: Access Denied" "ALERT:" (by decide) h
    have h2 : strContains m "Access Denied" = true :=
      strContains_trans m "ALERT: Access Denied" "Access Denied" (by decide) h
    simp [classifyMessage, ha, hv, h1, h2]
  · intro m h1 h2 ha hv hd
    simp [classifyMessage, ha, hv, h1, h2, hd]

/-- C3 witness: the amended theorem at the concrete messages
"ALERT: Access Denied" and "ALERT: breach at gate". -/
theorem c3_alert_rules_witness :
    classifyMessage "ALERT: Access Denied" = "Critical Alert" ∧
    classifyMessage "ALERT: breach at gate" = "General Alert" :=
  ⟨c3_alert_rules.1 "ALERT: Access Denied" (by decide) (by decide) (by decide),
   c3_alert_rules.2 "ALERT: breach at gate" (by decide) (by decide) (by decide) (by decide) (by decide)⟩

/-- C5: every possible simulator draw yields the both-supplies-active
scenario, so a simulate-power-change call on a registered device always sets
that device's power state to both supplies active and appends no alert
(neither failure-alert branch ever executes). -/
theorem c5_simulator_always_both_active :
    (∀ k : Nat, chooseScenario k = (true, true)) ∧
    ∀ (st : ServerState) (body : List (String × JVal)) (k : Nat) (now d : String),
      jget body "device_id" = JVal.str d →
      (st.power.lookup d).isSome = true →
      simulate_power_change st body k now =
        (⟨200, Payload.successWithPower ⟨JVal.bool true, JVal.bool true, now⟩⟩,
         { st with power := dinsert d ⟨JVal.bool true, JVal.bool true, now⟩ st.power }) := by
  refine ⟨chooseScenario_eq, ?_⟩
  intro st body k now d hd hreg
  simp [simulate_power_change, hd, hreg, chooseScenario_eq k]

/-- C5 witness: one concrete simulator run on the registered device leaves
the alert store empty and sets both supplies active. -/
theorem c5_simulator_always_both_active_witness :
    simulate_power_change (initState AlertsFile.missing)
        [("device_id", JVal.str "DEV001")] 3 "t1" =
      (⟨200, Payload.successWithPower ⟨JVal.bool true, JVal.bool true, "t1"⟩⟩,
       { initState AlertsFile.missing with
         power := dinsert "DEV001" ⟨JVal.bool true, JVal.bool true, "t1"⟩
           (initState AlertsFile.missing).power }) :=
  c5_simulator_always_both_active.2 (initState AlertsFile.missing)
    [("device_id", JVal.str "DEV001")] 3 "t1" "DEV001" rfl (by decide)

/-- C6: a power-status update whose device identifier is not a key of the
power-state map fails with 404 and mutates no state at all; for a registered
identifier it succeeds with 200, replaces both supply fields together with
the last-update time in one step, and changes nothing else (in particular it
appends no alert). -/
theorem c6_update_power_status_contract :
    (∀ (st : ServerState) (body : List (String × JVal)) (now : String),
      inPower (jget body "device_id") st.power = false →
      update_power_status st body now = (⟨404, Payload.errorDeviceNotFound⟩, st)) ∧
    ∀ (st : ServerState) (body : List (String × JVal)) (now d : String),
      jget body "device_id" = JVal.str d →
      (st.power.lookup d).isSome = true →
      update_power_status st body now =
        (⟨200, Payload.statusSuccess⟩,
         { st with power := dinsert d ⟨jget body "main_supply", jget body "backup_supply", now⟩ st.power }) := by
  constructor
  · intro st body now h
    unfold update_power_status
    cases hv : jget body "device_id" with
    | null => rfl
    | bool b => rfl
    | str d =>
      rw [hv] at h
      simp only [inPower] at h
      simp [h]
    | num n => rfl
  · intro st body now d hd hreg
    simp [update_power_status, hd, hreg]

/-- C6 witness: updating the unregistered id DEV999 returns 404 and leaves
the state untouched; updating the registered id DEV001 returns 200 with the
expected replacement. -/
theorem c6_update_power_status_contract_witness :
    update_power_status (initState AlertsFile.missing)
        [("device_id", JVal.str "DEV999")] "t1" =
      (⟨404, Payload.errorDeviceNotFound⟩, initState AlertsFile.missing) ∧
    update_power_status (initState AlertsFile.missing)
        [("device_id", JVal.str "DEV001"), ("main_supply", JVal.bool false), ("backup_supply", JVal.bool true)] "t1" =
      (⟨200, Payload.statusSuccess⟩,
       { initState AlertsFile.missing with
         power := dinsert "DEV001" ⟨JVal.bool false, JVal.bool true, "t1"⟩
           (initState AlertsFile.missing).power }) :=
  ⟨c6_update_power_status_contract.1 (initState AlertsFile.missing)
      [("device_id", JVal.str "DEV999")] "t1" (by decide),
   c6_update_power_status_contract.2 (initState AlertsFile.missing)
      [("device_id", JVal.str "DEV001"), ("main_supply", JVal.bool false), ("backup_supply", JVal.bool true)] "t1"
      "DEV001" rfl (by decide)⟩

/-- C9: a POST to the ingestion endpoint whose content type is neither
image/jpeg nor application/x-www-form-urlencoded returns 400 and leaves the
whole server state (alert store, power map, audit log, image store, durable
file) unchanged. -/
theorem c9_unsupported_content_type (st : ServerState) (req : PostReq) (now : String)
    (h1 : req.content_type ≠ "image/jpeg")
    (h2 : req.content_type ≠ "application/x-www-form-urlencoded") :
    receive_from_esp32 st req now = (⟨400, Payload.textUnsupported⟩, st) := by
  simp [receive_from_esp32, h1, h2]

/-- C9 witness: a text/plain POST against the startup state. -/
theorem c9_unsupported_content_type_witness :
    receive_from_esp32 (initState AlertsFile.missing) ⟨"text/plain", [], none, none⟩ "t1" =
      (⟨400, Payload.textUnsupported⟩, initState AlertsFile.missing) :=
  c9_unsupported_content_type (initState AlertsFile.missing)
    ⟨"text/plain", [], none, none⟩ "t1" (by decide) (by decide)

/-- C10: an accepted power-status update stores the request's main_supply
and backup_supply values verbatim, with no boolean validation; a request
body lacking a field stores null (Python None) for it. -/
theorem c10_update_stores_verbatim :
    (∀ (st : ServerState) (body : List (String × JVal)) (now d : String),
      jget body "device_id" = JVal.str d →
      (st.power.lookup d).isSome = true →
      (update_power_status st body now).2.power.lookup d =
        some ⟨jget body "main_supply", jget body "backup_supply", now⟩) ∧
    ∀ (body : List (String × JVal)) (k : String),
      body.lookup k = none → jget body k = JVal.null := by
  constructor
  · intro st body now d hd hreg
    simp [update_power_status, hd, hreg, lookup_dinsert]
  · intro body k h
    simp [jget, h]

/-- C10 witness: an accepted update that omits both supply fields stores
null for both of them. -/
theorem c10_update_stores_verbatim_witness :
    (update_power_status (initState AlertsFile.missing)
        [("device_id", JVal.str "DEV001")] "t1").2.power.lookup "DEV001" =
      some ⟨JVal.null, JVal.null, "t1"⟩ ∧
    jget [("device_id", JVal.str "DEV001")] "main_supply" = JVal.null :=
  ⟨c10_update_stores_verbatim.1 (initState AlertsFile.missing)
      [("device_id", JVal.str "DEV001")] "t1" "DEV001" rfl (by decide),
   c10_update_stores_verbatim.2 [("device_id", JVal.str "DEV001")] "main_supply" rfl⟩

/-- Each submission either leaves the alert list unchanged or appends exactly
one alert whose id is one plus the count at the moment of append. -/
lemma step_alerts_cases (st : ServerState) (sub : Submission) :
    (step st sub).alerts = st.alerts ∨
    ∃ a : Alert, a.id = st.alerts.length + 1 ∧ (step st sub).alerts = st.alerts ++ [a] := by
  cases sub with
  | post req now =>
    by_cases h1 : req.content_type = "image/jpeg"
    · refine Or.inr ⟨⟨st.alerts.length + 1, req.query_device.getD "UNKNOWN",
        "Image Captured", "Photo captured by device", now, now ++ ".jpg"⟩, rfl, ?_⟩
      simp [step, receive_from_esp32, h1]
    · by_cases h2 : req.content_type = "application/x-www-form-urlencoded"
      · refine Or.inr ⟨⟨st.alerts.length + 1, req.query_device.getD "UNKNOWN",
          classifyMessage (req.form_message.getD ""), req.form_message.getD "",
          now, "placeholder.jpg"⟩, rfl, ?_⟩
        simp [step, receive_from_esp32, h1, h2]
      · exact Or.inl (by simp [step, receive_from_esp32, h1, h2])
  | updatePower body now =>
    refine Or.inl ?_
    simp only [step]
    unfold update_power_status
    cases jget body "device_id" with
    | null => rfl
    | bool b => rfl
    | str d => by_cases h : (st.power.lookup d).isSome <;> simp [h]
    | num n => rfl
  | simulate body k now =>
    refine Or.inl ?_
    simp only [step]
    unfold simulate_power_change
    cases jget body "device_id" with
    | null => rfl
    | bool b => rfl
    | str d => by_cases h : (st.power.lookup d).isSome <;> simp [h, chooseScenario_eq k]
    | num n => rfl

/-- The dense-id invariant is preserved along any sequential run. -/
lemma run_ids (st : ServerState)
    (h : st.alerts.map Alert.id = List.range' 1 st.alerts.length) (subs : List Submission) :
    (run st subs).alerts.map Alert.id = List.range' 1 (run st subs).alerts.length := by
  induction subs generalizing st with
  | nil => exact h
  | cons sub rest ih =>
    have hstep : (step st sub).alerts.map Alert.id
        = List.range' 1 (step st sub).alerts.length := by
      rcases step_alerts_cases st sub with heq | ⟨a, hid, heq⟩
      · rw [heq]; exact h
      · rw [heq]
        simp only [List.map_append, List.length_append, List.map_cons, List.map_nil,
          List.length_cons, List.length_nil]
        rw [h, hid]
        simpa [Nat.add_comm] using (List.range'_1_concat 1 st.alerts.length).symm
    exact ih (step st sub) hstep

/-- The final alert count equals the starting count plus the number of
submissions that appended an alert. -/
lemma run_length (st : ServerState) (subs : List Submission) :
    (run st subs).alerts.length = st.alerts.length + countEmitted st subs := by
  induction subs generalizing st with
  | nil => simp [run, countEmitted]
  | cons sub rest ih =>
    have hc : (step st sub).alerts.length = st.alerts.length ∨
        (step st sub).alerts.length = st.alerts.length + 1 := by
      rcases step_alerts_cases st sub with heq | ⟨a, _, heq⟩
      · exact Or.inl (by rw [heq])
      · exact Or.inr (by rw [heq]; simp)
    have ihs := ih (step st sub)
    show (run (step st sub) rest).alerts.length = _
    simp only [countEmitted]
    omega

/-- C1: running any sequence of submissions sequentially from the startup
state yields an alert store whose ids are exactly the dense sequence
1..count (each id occurring once), and whose count equals the number of
submissions that appended an alert along the run; every append assigns
id = count + 1 at the moment of append (step_alerts_cases). -/
theorem c1_dense_ids (subs : List Submission) :
    (run (initState AlertsFile.missing) subs).alerts.map Alert.id
      = List.range' 1 (run (initState AlertsFile.missing) subs).alerts.length ∧
    (run (initState AlertsFile.missing) subs).alerts.length
      = countEmitted (initState AlertsFile.missing) subs := by
  constructor
  · exact run_ids (initState AlertsFile.missing) (by simp [initState, load_alerts_from_file]) subs
  · simpa [initState, load_alerts_from_file] using
      run_length (initState AlertsFile.missing) subs
